import Mathlib

/-
Verification of the DeepSeek proxy router (src/routers/deepseek.py).

The development shallowly embeds the parts of the router that the claims
concern: the streaming SSE relay (the body of the async generator
`generate` inside `stream_completion`, lines 366-388 of the source), the
per-frame JSON extraction with Python exception semantics, the pre-network
guards of `chat_completion` and `stream_completion`, the credential
resolution of the module (line 102) and of the auxiliary endpoints
`list_models` / `get_user_balance` / `check_api_key`, and the state
transition performed by `set_api_key`.

Modelling conventions:
- decoded JSON values (the results of `json.loads`) are the inductive
  `Json`; `json.loads` itself is library code and is passed to the relay
  as an abstract `decode : String -> Option Json` (`none` models a
  `json.JSONDecodeError`);
- Python `dict.get` / `[0]` indexing carry their exception behaviour in
  `Except PyErr`; only `JSONDecodeError` is caught by the source's
  `try/except`, every other exception aborts the generator;
- upstream lines are `String`s (the source's `line.decode('utf-8')` of the
  bytes produced by `iter_lines`); `line_str.startswith('data: ')` and
  `line_str[6:]` are modelled character-exactly by `pyStartsWith` and
  `pyDrop`;
- `requests.Response.raise_for_status` raises exactly for statuses in
  [400, 600), which `raise_for_status_err` mirrors;
- network and file-system effects are represented by the data the source
  would send (bearer token, request payload) or by explicit parameters
  (the validation status and the file-write success in `set_api_key`);
  the YAML field patcher `update_yaml_field`, explicitly out of the
  specified core, enters `set_api_key` as an opaque `String -> String`
  parameter.
-/

namespace DeepseekRouter

/-- A decoded JSON value, as produced by a successful `json.loads`.
Objects are association lists with distinct keys (Python dicts). -/
inductive Json where
  | null : Json
  | bool : Bool → Json
  | num : Rat → Json
  | str : String → Json
  | arr : List Json → Json
  | obj : List (String × Json) → Json

/-- Key lookup in a JSON object's field list (Python dict lookup). -/
def lookupField : List (String × Json) → String → Option Json
  | [], _ => none
  | (k, v) :: rest, key => if k = key then some v else lookupField rest key

/-- Python exceptions that the extraction expressions of the generator can
raise; none of them is caught by the source's `except json.JSONDecodeError`. -/
inductive PyErr where
  | indexError : PyErr
  | keyError : PyErr
  | typeError : PyErr
  | attributeError : PyErr
deriving DecidableEq

/-- Python `value.get(key, default)`: dictionary lookup with a default;
an `AttributeError` on any non-dict value. -/
def dictGet (j : Json) (key : String) (dflt : Json) : Except PyErr Json :=
  match j with
  | Json.obj fields => Except.ok ((lookupField fields key).getD dflt)
  | _ => Except.error PyErr.attributeError

/-- Python `value[0]`: first element of a list (`IndexError` when empty),
first character of a string, `KeyError` on a (string-keyed) dict,
`TypeError` on every other JSON value. -/
def index0 : Json → Except PyErr Json
  | Json.arr [] => Except.error PyErr.indexError
  | Json.arr (x :: _) => Except.ok x
  | Json.str s =>
      match s.data with
      | [] => Except.error PyErr.indexError
      | c :: _ => Except.ok (Json.str (String.mk [c]))
  | Json.obj _ => Except.error PyErr.keyError
  | _ => Except.error PyErr.typeError

/-- One normalized downstream SSE event: the dictionary
`{'content': ..., 'finish_reason': ...}` the generator serializes. -/
structure NormEvent where
  content : Json
  finish_reason : Json

/-- Whether an `Except` computation succeeded. -/
def exOk {ε α : Type} : Except ε α → Bool
  | Except.ok _ => true
  | Except.error _ => false

/-- Lines 382-385 of the source, with Python evaluation order:
`delta = data.get('choices', [{}])[0].get('delta', {})`,
`content = delta.get('content', '')`,
`finish_reason = data.get('choices', [{}])[0].get('finish_reason')`. -/
def extractEvent (data : Json) : Except PyErr NormEvent :=
  match dictGet data "choices" (Json.arr [Json.obj []]) with
  | Except.error e => Except.error e
  | Except.ok choices =>
    match index0 choices with
    | Except.error e => Except.error e
    | Except.ok first =>
      match dictGet first "delta" (Json.obj []) with
      | Except.error e => Except.error e
      | Except.ok delta =>
        match dictGet delta "content" (Json.str "") with
        | Except.error e => Except.error e
        | Except.ok content =>
          match dictGet data "choices" (Json.arr [Json.obj []]) with
          | Except.error e => Except.error e
          | Except.ok choices2 =>
            match index0 choices2 with
            | Except.error e => Except.error e
            | Except.ok first2 =>
              match dictGet first2 "finish_reason" Json.null with
              | Except.error e => Except.error e
              | Except.ok fr => Except.ok (NormEvent.mk content fr)

/-- The terminal event `{'content': '', 'finish_reason': 'stop'}` emitted on
the `[DONE]` sentinel (line 379). -/
def doneEvent : NormEvent := NormEvent.mk (Json.str "") (Json.str "stop")

/-- The parse-error marker event `{'content': '[解析错误]', 'finish_reason': None}`
emitted on a JSON decode failure (line 388). -/
def markerEvent : NormEvent := NormEvent.mk (Json.str "[解析错误]") Json.null

/-- Python `s.startswith(p)` on code points. -/
def pyStartsWith (s p : String) : Bool := s.data.take p.data.length == p.data

/-- Python `s[n:]` on code points. -/
def pyDrop (s : String) (n : Nat) : String := String.mk (s.data.drop n)

/-- How the generator's line loop ends. -/
inductive Outcome where
  | completed : Outcome
  | exhausted : Outcome
  | aborted : PyErr → Outcome
deriving DecidableEq

/-- The line loop of the async generator `generate` (lines 372-388): the
events yielded downstream, paired with how the loop ended.
`completed` is the `break` after the `[DONE]` sentinel, `exhausted` is
`iter_lines` running out (upstream close without the sentinel), and
`aborted e` is an uncaught Python exception escaping the generator. -/
def generate (decode : String → Option Json) : List String → List NormEvent × Outcome
  | [] => ([], Outcome.exhausted)
  | line :: rest =>
    if line = "" then generate decode rest
    else if pyStartsWith line "data: " then
      if pyDrop line 6 = "[DONE]" then
        ([doneEvent], Outcome.completed)
      else
        match decode (pyDrop line 6) with
        | some d =>
          match extractEvent d with
          | Except.ok ev => (ev :: (generate decode rest).1, (generate decode rest).2)
          | Except.error e => ([], Outcome.aborted e)
        | none => (markerEvent :: (generate decode rest).1, (generate decode rest).2)
    else generate decode rest

/-- The event a single upstream line contributes: `none` for ignored lines
(empty, keep-alive, the sentinel) and for lines whose extraction raises. -/
def frameEvent (decode : String → Option Json) (line : String) : Option NormEvent :=
  if line = "" then none
  else if pyStartsWith line "data: " then
    if pyDrop line 6 = "[DONE]" then none
    else
      match decode (pyDrop line 6) with
      | some d =>
        match extractEvent d with
        | Except.ok ev => some ev
        | Except.error _ => none
      | none => some markerEvent
  else none

/-- The events of a line sequence, one per contributing frame, in order. -/
def frameEvents (decode : String → Option Json) (lines : List String) : List NormEvent :=
  lines.filterMap (frameEvent decode)

/-- A line that neither is the `[DONE]` sentinel nor raises an uncaught
exception: non-data lines, well-shaped JSON frames, and undecodable
frames (which recover with the marker). -/
def lineOk (decode : String → Option Json) (line : String) : Bool :=
  if pyStartsWith line "data: " then
    if pyDrop line 6 = "[DONE]" then false
    else
      match decode (pyDrop line 6) with
      | some d => exOk (extractEvent d)
      | none => true
  else true

/-- A well-formed line: like `lineOk`, but every data frame must actually
decode as JSON (no marker frames). -/
def lineGood (decode : String → Option Json) (line : String) : Bool :=
  if pyStartsWith line "data: " then
    if pyDrop line 6 = "[DONE]" then false
    else
      match decode (pyDrop line 6) with
      | some d => exOk (extractEvent d)
      | none => false
  else true

/-- No sentinel and no aborting frame anywhere in the sequence. -/
def noDoneNoAbort (decode : String → Option Json) (lines : List String) : Bool :=
  lines.all (lineOk decode)

/-- A well-formed stream body: every data frame decodes and extracts cleanly,
and none is the sentinel. -/
def wellFormedBody (decode : String → Option Json) (lines : List String) : Bool :=
  lines.all (lineGood decode)

/-- An upstream streaming response: HTTP status, body text, and the lines
`iter_lines` will yield. -/
structure UpResponse where
  status : Nat
  body : String
  lines : List String

/-- `requests.Response.raise_for_status` raises `HTTPError` exactly for
4xx and 5xx statuses. -/
def raise_for_status_err (status : Nat) : Bool :=
  decide (400 ≤ status) && decide (status < 600)

/-- What the relay produces from one upstream response: either the
`HTTPError` from `raise_for_status` (raised before any yield, carrying the
upstream status and body), or the streamed events with their outcome. -/
inductive RelayResult where
  | httpError : Nat → String → RelayResult
  | stream : List NormEvent → Outcome → RelayResult

/-- Lines 368-388: `raise_for_status()` first, then the line loop. -/
def generateResp (decode : String → Option Json) (r : UpResponse) : RelayResult :=
  if raise_for_status_err r.status then RelayResult.httpError r.status r.body
  else RelayResult.stream (generate decode r.lines).1 (generate decode r.lines).2

/-- One chat message, as in the source's `ChatMessage` model. -/
structure ChatMessage where
  role : String
  content : String

/-- The source's `ChatRequest` model. Optional JSON-valued fields are kept
opaque: the endpoints only test them against `None` and pass them through. -/
structure ChatRequest where
  messages : List ChatMessage
  model : Option String
  temperature : Option Json
  max_tokens : Option Json
  top_p : Option Json
  stream : Bool
  json_mode : Bool

/-- The upstream request body `data` built by both endpoints
(lines 259-272 and 348-362): model (`request.model or DEFAULT_MODEL`),
messages, temperature and max_tokens (request value if not None, else the
configured default, else 1.0 / 1000), a literal `stream: true` for the
streaming endpoint, then optional top_p and response_format. -/
def buildData (defaultModel : String) (default_settings : List (String × Json))
    (req : ChatRequest) (streaming : Bool) : Json :=
  let base : List (String × Json) :=
    [("model", Json.str (match req.model with
        | some m => if m = "" then defaultModel else m
        | none => defaultModel)),
     ("messages", Json.arr (req.messages.map fun m =>
        Json.obj [("role", Json.str m.role), ("content", Json.str m.content)])),
     ("temperature", req.temperature.getD
        ((lookupField default_settings "temperature").getD (Json.num 1))),
     ("max_tokens", req.max_tokens.getD
        ((lookupField default_settings "max_tokens").getD (Json.num 1000)))]
  let base := if streaming then base ++ [("stream", Json.bool true)] else base
  let base := match req.top_p with
    | some v => base ++ [("top_p", v)]
    | none => base
  let base := if req.json_mode then
      base ++ [("response_format", Json.obj [("type", Json.str "json_object")])]
    else base
  Json.obj base

/-- The outbound call both endpoints would issue: bearer credential of the
Authorization header plus the JSON body. -/
structure UpstreamCall where
  bearer : String
  data : Json

/-- What `chat_completion` does before any network I/O: the HTTP 500 of a
missing key (line 244), the HTTP 400 redirecting `stream=true` callers to
`/stream` (line 275), or the upstream POST. -/
inductive ChatOutcome where
  | configError : ChatOutcome
  | streamRejected : ChatOutcome
  | request : UpstreamCall → ChatOutcome

/-- Lines 236-280 of `chat_completion`, up to the network call. The key
check precedes everything; the guard against `stream=true` fires before
the POST. -/
def chat_completion (apiKey : String) (defaultModel : String)
    (default_settings : List (String × Json)) (req : ChatRequest) : ChatOutcome :=
  if apiKey = "" then ChatOutcome.configError
  else if req.stream then ChatOutcome.streamRejected
  else ChatOutcome.request (UpstreamCall.mk apiKey (buildData defaultModel default_settings req false))

/-- What `stream_completion` does before any network I/O. -/
inductive StreamOutcome where
  | configError : StreamOutcome
  | request : UpstreamCall → StreamOutcome

/-- Lines 322-368 of `stream_completion`, up to the network call: the
request's stream flag is forced to true (its value is otherwise unread;
the body carries a literal `"stream": True`), then the key check, then
the POST. -/
def stream_completion (apiKey : String) (defaultModel : String)
    (default_settings : List (String × Json)) (req : ChatRequest) : StreamOutcome :=
  if apiKey = "" then StreamOutcome.configError
  else StreamOutcome.request (UpstreamCall.mk apiKey (buildData defaultModel default_settings req true))

/-- Line 102: `API_KEY = os.environ.get("DEEPSEEK_API_KEY",
deepseek_config.get('api_key', ''))` — the environment value whenever the
variable is set, else the config value, else the empty string. -/
def API_KEY_init (env : Option String) (cfg_api_key : Option String) : String :=
  match env with
  | some v => v
  | none => cfg_api_key.getD ""

/-- What a credentialed auxiliary endpoint does: the HTTP 401 of a missing
key, or the upstream GET with its bearer credential. -/
inductive KeyedCall where
  | missingKey : KeyedCall
  | request : String → KeyedCall

/-- Lines 407-421 of `list_models`: the key is read from
`config.get('deepseek', {}).get('api_key')` — the config file only. -/
def list_models (cfg_api_key : Option String) : KeyedCall :=
  match cfg_api_key with
  | none => KeyedCall.missingKey
  | some k => if k = "" then KeyedCall.missingKey else KeyedCall.request k

/-- Lines 461-478 of `get_user_balance`: same config-only key read. -/
def get_user_balance (cfg_api_key : Option String) : KeyedCall :=
  match cfg_api_key with
  | none => KeyedCall.missingKey
  | some k => if k = "" then KeyedCall.missingKey else KeyedCall.request k

/-- Line 521 of `check_api_key`:
`api_key = API_KEY or config.get('deepseek', {}).get('api_key', '')`. -/
def check_api_key_credential (api_key_global : String) (cfg_api_key : Option String) : String :=
  if api_key_global = "" then cfg_api_key.getD "" else api_key_global

/-- The source's `ApiKeyResponse` model. -/
structure ApiKeyResponse where
  success : Bool
  message : String

/-- The process state `set_api_key` mutates: the global `API_KEY`, the
config file's content, and the in-memory `config`'s deepseek api_key. -/
structure AppState where
  API_KEY : String
  configFileContent : String
  config_api_key : Option String

/-- Lines 578-650 of `set_api_key`. `validateStatus` is the status of the
upstream validation GET; `updateField` is the out-of-scope YAML patcher
`update_yaml_field content ['deepseek', 'api_key'] newKey`; `writeOk`
says whether the file read/update/write block succeeds. On validation
failure nothing changes; on success the global `API_KEY` is assigned
first (line 620) and only then is persistence attempted, so a failed
write still leaves the new key live in the process. -/
def set_api_key (validateStatus : Nat) (updateField : String → String) (writeOk : Bool)
    (st : AppState) (newKey : String) : AppState × ApiKeyResponse :=
  if validateStatus ≠ 200 then
    (st, ApiKeyResponse.mk false "API密钥无效")
  else
    let st1 : AppState := { st with API_KEY := newKey }
    if writeOk then
      ({ st1 with
          configFileContent := updateField st.configFileContent,
          config_api_key := some newKey },
       ApiKeyResponse.mk true "API密钥已更新并保存到配置文件")
    else
      (st1, ApiKeyResponse.mk false "保存API密钥到配置文件失败")

/-! Helper lemmas about the line loop. -/

lemma generate_cons (decode : String → Option Json) (line : String) (rest : List String) :
    generate decode (line :: rest) =
      if line = "" then generate decode rest
      else if pyStartsWith line "data: " then
        if pyDrop line 6 = "[DONE]" then
          ([doneEvent], Outcome.completed)
        else
          match decode (pyDrop line 6) with
          | some d =>
            match extractEvent d with
            | Except.ok ev => (ev :: (generate decode rest).1, (generate decode rest).2)
            | Except.error e => ([], Outcome.aborted e)
          | none => (markerEvent :: (generate decode rest).1, (generate decode rest).2)
      else generate decode rest := rfl

lemma pyStartsWith_empty : pyStartsWith "" "data: " = false := by decide

lemma startsWith_ne_empty {line : String} (h : pyStartsWith line "data: " = true) :
    line ≠ "" := by
  intro he
  rw [he, pyStartsWith_empty] at h
  exact Bool.false_ne_true h

lemma generate_cons_skip (decode : String → Option Json) (line : String) (rest : List String)
    (h : pyStartsWith line "data: " = false) :
    generate decode (line :: rest) = generate decode rest := by
  rw [generate_cons]
  by_cases he : line = ""
  · rw [if_pos he]
  · rw [if_neg he, h]
    simp

lemma generate_cons_done (decode : String → Option Json) (line : String) (rest : List String)
    (h1 : pyStartsWith line "data: " = true) (h2 : pyDrop line 6 = "[DONE]") :
    generate decode (line :: rest) = ([doneEvent], Outcome.completed) := by
  rw [generate_cons, if_neg (startsWith_ne_empty h1), h1, if_pos rfl, if_pos h2]

lemma generate_cons_ok (decode : String → Option Json) (line : String) (rest : List String)
    (d : Json) (ev : NormEvent)
    (h1 : pyStartsWith line "data: " = true) (h2 : pyDrop line 6 ≠ "[DONE]")
    (h3 : decode (pyDrop line 6) = some d) (h4 : extractEvent d = Except.ok ev) :
    generate decode (line :: rest) =
      (ev :: (generate decode rest).1, (generate decode rest).2) := by
  rw [generate_cons, if_neg (startsWith_ne_empty h1), h1, if_pos rfl, if_neg h2]
  simp only [h3, h4]

lemma generate_cons_abort (decode : String → Option Json) (line : String) (rest : List String)
    (d : Json) (e : PyErr)
    (h1 : pyStartsWith line "data: " = true) (h2 : pyDrop line 6 ≠ "[DONE]")
    (h3 : decode (pyDrop line 6) = some d) (h4 : extractEvent d = Except.error e) :
    generate decode (line :: rest) = ([], Outcome.aborted e) := by
  rw [generate_cons, if_neg (startsWith_ne_empty h1), h1, if_pos rfl, if_neg h2]
  simp only [h3, h4]

lemma generate_cons_marker (decode : String → Option Json) (line : String) (rest : List String)
    (h1 : pyStartsWith line "data: " = true) (h2 : pyDrop line 6 ≠ "[DONE]")
    (h3 : decode (pyDrop line 6) = none) :
    generate decode (line :: rest) =
      (markerEvent :: (generate decode rest).1, (generate decode rest).2) := by
  rw [generate_cons, if_neg (startsWith_ne_empty h1), h1, if_pos rfl, if_neg h2]
  simp only [h3]

lemma frameEvent_skip (decode : String → Option Json) (line : String)
    (h : pyStartsWith line "data: " = false) : frameEvent decode line = none := by
  rw [frameEvent]
  by_cases he : line = ""
  · rw [if_pos he]
  · rw [if_neg he, h]
    simp

lemma frameEvent_ok (decode : String → Option Json) (line : String) (d : Json) (ev : NormEvent)
    (h1 : pyStartsWith line "data: " = true) (h2 : pyDrop line 6 ≠ "[DONE]")
    (h3 : decode (pyDrop line 6) = some d) (h4 : extractEvent d = Except.ok ev) :
    frameEvent decode line = some ev := by
  rw [frameEvent, if_neg (startsWith_ne_empty h1), h1, if_pos rfl, if_neg h2]
  simp only [h3, h4]

lemma frameEvent_marker (decode : String → Option Json) (line : String)
    (h1 : pyStartsWith line "data: " = true) (h2 : pyDrop line 6 ≠ "[DONE]")
    (h3 : decode (pyDrop line 6) = none) :
    frameEvent decode line = some markerEvent := by
  rw [frameEvent, if_neg (startsWith_ne_empty h1), h1, if_pos rfl, if_neg h2]
  simp only [h3]

/-- The workhorse: a sequence without the sentinel and without aborting
frames is processed frame by frame in order, after which the relay carries
on with whatever follows. -/
lemma generate_append (decode : String → Option Json) (suffix : List String) :
    ∀ pre : List String, noDoneNoAbort decode pre = true →
      generate decode (pre ++ suffix) =
        (frameEvents decode pre ++ (generate decode suffix).1, (generate decode suffix).2)
  | [], _ => by
    simp only [List.nil_append, frameEvents, List.filterMap_nil]
  | line :: pre, h => by
    rw [noDoneNoAbort, List.all_cons, Bool.and_eq_true] at h
    obtain ⟨hline, hrest⟩ := h
    have ih := generate_append decode suffix pre hrest
    rw [List.cons_append]
    by_cases hsw : pyStartsWith line "data: " = true
    · rw [lineOk, hsw, if_pos rfl] at hline
      by_cases hD : pyDrop line 6 = "[DONE]"
      · rw [if_pos hD] at hline
        exact absurd hline Bool.false_ne_true
      · rw [if_neg hD] at hline
        cases hdec : decode (pyDrop line 6) with
        | some d =>
          simp only [hdec] at hline
          cases hex : extractEvent d with
          | ok ev =>
            rw [generate_cons_ok decode line (pre ++ suffix) d ev hsw hD hdec hex, ih]
            simp only [frameEvents, List.filterMap_cons,
              frameEvent_ok decode line d ev hsw hD hdec hex, List.cons_append]
          | error e =>
            simp only [hex, exOk] at hline
            exact absurd hline Bool.false_ne_true
        | none =>
          rw [generate_cons_marker decode line (pre ++ suffix) hsw hD hdec, ih]
          simp only [frameEvents, List.filterMap_cons,
            frameEvent_marker decode line hsw hD hdec, List.cons_append]
    · rw [generate_cons_skip decode line (pre ++ suffix) (Bool.eq_false_iff.mpr hsw), ih]
      simp only [frameEvents, List.filterMap_cons,
        frameEvent_skip decode line (Bool.eq_false_iff.mpr hsw)]

/-- A well-formed line is in particular non-aborting. -/
lemma lineGood_imp_lineOk (decode : String → Option Json) (line : String)
    (h : lineGood decode line = true) : lineOk decode line = true := by
  rw [lineGood] at h
  rw [lineOk]
  by_cases hsw : pyStartsWith line "data: " = true
  · rw [hsw, if_pos rfl] at h ⊢
    by_cases hD : pyDrop line 6 = "[DONE]"
    · rw [if_pos hD] at h
      exact absurd h Bool.false_ne_true
    · rw [if_neg hD] at h ⊢
      cases hdec : decode (pyDrop line 6) with
      | some d => simp only [hdec] at h ⊢; exact h
      | none =>
        simp only [hdec] at h
        exact absurd h Bool.false_ne_true
  · rw [Bool.eq_false_iff.mpr hsw] at h ⊢
    simp

lemma wellFormed_imp_noDoneNoAbort (decode : String → Option Json) (lines : List String)
    (h : wellFormedBody decode lines = true) : noDoneNoAbort decode lines = true := by
  rw [wellFormedBody, List.all_eq_true] at h
  rw [noDoneNoAbort, List.all_eq_true]
  exact fun x hx => lineGood_imp_lineOk decode x (h x hx)

lemma generate_done_singleton (decode : String → Option Json) :
    generate decode ["data: [DONE]"] = ([doneEvent], Outcome.completed) :=
  generate_cons_done decode "data: [DONE]" [] (by decide) (by decide)

/-! Concrete values used to exercise the definitions. `decode0` is one
concrete instantiation of the JSON decoder: it recognizes the spec's
round-trip example payload and an empty-choices payload, and reports a
decode failure on everything else. -/

/-- The payload of the round-trip example frame
`data: {"choices":[{"delta":{"content":"hi"},"finish_reason":null}]}`. -/
def hiPayload : String :=
  "\x7b\"choices\":[\x7b\"delta\":\x7b\"content\":\"hi\"\x7d,\"finish_reason\":null\x7d]\x7d"

/-- The JSON value `hiPayload` decodes to. -/
def jHi : Json :=
  Json.obj [("choices", Json.arr [Json.obj
    [("delta", Json.obj [("content", Json.str "hi")]), ("finish_reason", Json.null)]])]

/-- A payload decoding to an object whose choices list is empty. -/
def emptyChoicesPayload : String := "\x7b\"choices\":[]\x7d"

/-- A concrete JSON decoder for witnesses. -/
def decode0 : String → Option Json := fun s =>
  if s = hiPayload then some jHi
  else if s = emptyChoicesPayload then some (Json.obj [("choices", Json.arr [])])
  else none

/-- The round-trip example upstream line. -/
def hiLine : String := "data: " ++ hiPayload

/-- The event the round-trip example frame must produce:
`{"content":"hi","finish_reason":null}`. -/
def hiEvent : NormEvent := NormEvent.mk (Json.str "hi") Json.null

/-! The claims. -/

/-- C1: for every well-formed upstream SSE line sequence ending in the
`[DONE]` sentinel, the relay emits exactly one normalized event per
`data: `-prefixed frame plus exactly one terminal event with
finish_reason "stop", in exactly the order the frames were received —
no reordering, no batching, no dropped or duplicated frames. -/
theorem relay_one_event_per_frame_then_terminal (decode : String → Option Json)
    (pre : List String) (h : wellFormedBody decode pre = true) :
    generate decode (pre ++ ["data: [DONE]"]) =
      (frameEvents decode pre ++ [doneEvent], Outcome.completed) := by
  rw [generate_append decode ["data: [DONE]"] pre (wellFormed_imp_noDoneNoAbort decode pre h),
    generate_done_singleton]

/-- Witness for C1: a JSON frame, an empty keep-alive line and a non-data
line followed by the sentinel yield exactly the frame's event and the
terminal event. -/
theorem relay_one_event_per_frame_then_terminal_witness :
    wellFormedBody decode0 [hiLine, "", ": keep-alive"] = true ∧
    generate decode0 [hiLine, "", ": keep-alive", "data: [DONE]"] =
      ([hiEvent, doneEvent], Outcome.completed) :=
  ⟨rfl, relay_one_event_per_frame_then_terminal decode0 [hiLine, "", ": keep-alive"] rfl⟩

/-- C2: a streaming line whose `data: `-stripped payload is the literal
`[DONE]` produces exactly one event with empty content and finish_reason
"stop", after which the relay stops: the result is the same whatever
lines follow the sentinel. -/
theorem done_sentinel_terminates (decode : String → Option Json) (line : String)
    (rest rest2 : List String)
    (h1 : pyStartsWith line "data: " = true) (h2 : pyDrop line 6 = "[DONE]") :
    generate decode (line :: rest) = ([doneEvent], Outcome.completed) ∧
    generate decode (line :: rest) = generate decode (line :: rest2) :=
  ⟨generate_cons_done decode line rest h1 h2,
   (generate_cons_done decode line rest h1 h2).trans
     (generate_cons_done decode line rest2 h1 h2).symm⟩

/-- Witness for C2: `data: [DONE]` followed by a frame that would emit an
event nevertheless produces only the terminal event. -/
theorem done_sentinel_terminates_witness :
    pyStartsWith "data: [DONE]" "data: " = true ∧
    pyDrop "data: [DONE]" 6 = "[DONE]" ∧
    generate decode0 ["data: [DONE]", hiLine] = ([doneEvent], Outcome.completed) :=
  ⟨rfl, rfl, (done_sentinel_terminates decode0 "data: [DONE]" [hiLine] [] rfl rfl).1⟩

/-- C3: a frame whose payload decodes as JSON (object shaped, with a first
choice) emits exactly one event whose content is choices[0].delta.content
(the empty string when absent) and whose finish_reason is
choices[0].finish_reason (null when absent); the relay then continues
with the remaining lines. -/
theorem json_frame_normalized (decode : String → Option Json) (line : String)
    (rest : List String) (fields c0fields dFields : List (String × Json)) (tl : List Json)
    (h1 : pyStartsWith line "data: " = true)
    (h2 : pyDrop line 6 ≠ "[DONE]")
    (h3 : decode (pyDrop line 6) = some (Json.obj fields))
    (h4 : lookupField fields "choices" = some (Json.arr (Json.obj c0fields :: tl)))
    (h5 : (lookupField c0fields "delta").getD (Json.obj []) = Json.obj dFields) :
    generate decode (line :: rest) =
      (NormEvent.mk ((lookupField dFields "content").getD (Json.str ""))
          ((lookupField c0fields "finish_reason").getD Json.null)
        :: (generate decode rest).1,
       (generate decode rest).2) := by
  apply generate_cons_ok decode line rest (Json.obj fields) _ h1 h2 h3
  simp only [extractEvent, dictGet, h4, Option.getD_some, index0, h5]

/-- Witness for C3: the spec's round-trip frame produces exactly
`{"content":"hi","finish_reason":null}`. -/
theorem json_frame_normalized_witness :
    decode0 hiPayload = some jHi ∧
    generate decode0 [hiLine] = ([hiEvent], Outcome.exhausted) :=
  ⟨rfl, json_frame_normalized decode0 hiLine []
    [("choices", Json.arr [Json.obj
      [("delta", Json.obj [("content", Json.str "hi")]), ("finish_reason", Json.null)]])]
    [("delta", Json.obj [("content", Json.str "hi")]), ("finish_reason", Json.null)]
    [("content", Json.str "hi")] []
    rfl (by decide) rfl rfl rfl⟩

/-- C4: a frame whose payload fails JSON decoding does not abort the
stream: it contributes exactly one marker event
`{"content":"[解析错误]","finish_reason":null}` and the relay continues
with the remaining lines unchanged. -/
theorem undecodable_frame_marker (decode : String → Option Json) (line : String)
    (rest : List String)
    (h1 : pyStartsWith line "data: " = true) (h2 : pyDrop line 6 ≠ "[DONE]")
    (h3 : decode (pyDrop line 6) = none) :
    generate decode (line :: rest) =
      (markerEvent :: (generate decode rest).1, (generate decode rest).2) :=
  generate_cons_marker decode line rest h1 h2 h3

/-- Witness for C4: an undecodable frame between two valid frames yields
the first frame's event, the marker, then the second frame's event. -/
theorem undecodable_frame_marker_witness :
    decode0 "oops" = none ∧
    generate decode0 [hiLine, "data: oops", hiLine] =
      ([hiEvent, markerEvent, hiEvent], Outcome.exhausted) := by
  refine ⟨rfl, ?_⟩
  have h := undecodable_frame_marker decode0 "data: oops" [hiLine] rfl (by decide) rfl
  have h0 := generate_cons_ok decode0 hiLine ["data: oops", hiLine] jHi hiEvent
    rfl (by decide) rfl rfl
  rw [h0, h]
  rfl

/-- C7: when the upstream closes without ever sending `[DONE]` (and no
frame aborts), the downstream sequence is exactly the per-frame events of
the lines received, ended by exhaustion: no terminal event is synthesized
(the outcome is `exhausted`, not `completed`, and nothing is appended). -/
theorem upstream_close_without_done (decode : String → Option Json) (lines : List String)
    (h : noDoneNoAbort decode lines = true) :
    generate decode lines = (frameEvents decode lines, Outcome.exhausted) := by
  have hgen := generate_append decode [] lines h
  rw [List.append_nil] at hgen
  rw [hgen]
  simp only [generate, List.append_nil]

/-- Witness for C7: a valid frame, a keep-alive and an undecodable frame
with no sentinel end in exhaustion with exactly the per-frame events. -/
theorem upstream_close_without_done_witness :
    noDoneNoAbort decode0 [hiLine, "", "data: oops"] = true ∧
    generate decode0 [hiLine, "", "data: oops"] =
      ([hiEvent, markerEvent], Outcome.exhausted) :=
  ⟨rfl, upstream_close_without_done decode0 [hiLine, "", "data: oops"] rfl⟩

/-- C9: the per-line recovery catches only JSON decode failures — a frame
that decodes but whose extraction raises (for instance an empty choices
list, which makes `choices[0]` raise IndexError) aborts the generator:
no marker event for the frame, no terminal event, and no later line is
processed. -/
theorem uncaught_extraction_abort (decode : String → Option Json) (line : String)
    (rest : List String) (j : Json) (e : PyErr)
    (h1 : pyStartsWith line "data: " = true)
    (h2 : pyDrop line 6 ≠ "[DONE]")
    (h3 : decode (pyDrop line 6) = some j)
    (h4 : extractEvent j = Except.error e) :
    generate decode (line :: rest) = ([], Outcome.aborted e) ∧
    extractEvent (Json.obj [("choices", Json.arr [])]) = Except.error PyErr.indexError :=
  ⟨generate_cons_abort decode line rest j e h1 h2 h3 h4, rfl⟩

/-- Witness for C9: an empty-choices frame aborts with IndexError, emitting
nothing, even though a valid frame follows. -/
theorem uncaught_extraction_abort_witness :
    decode0 emptyChoicesPayload = some (Json.obj [("choices", Json.arr [])]) ∧
    generate decode0 ["data: " ++ emptyChoicesPayload, hiLine] =
      ([], Outcome.aborted PyErr.indexError) :=
  ⟨rfl, (uncaught_extraction_abort decode0 ("data: " ++ emptyChoicesPayload) [hiLine]
    (Json.obj [("choices", Json.arr [])]) PyErr.indexError
    rfl (by decide) rfl rfl).1⟩

/-- A concrete chat request for witnesses. -/
def req0 : ChatRequest :=
  ChatRequest.mk [ChatMessage.mk "user" "hello"] none none none none false false

/-- C5 counterexample: 304 is not a 2xx status, yet `raise_for_status`
raises only for 4xx/5xx, so the relay treats the response as success:
events are streamed and no HTTP error carrying status and body is
surfaced. -/
theorem upstream_error_counterexample :
    ((200 ≤ 304 ∧ 304 < 300) = False) ∧
    raise_for_status_err 304 = false ∧
    generateResp decode0 (UpResponse.mk 304 "redirect" [hiLine]) =
      RelayResult.stream [hiEvent] Outcome.exhausted :=
  ⟨by simp, rfl, rfl⟩

/-- C5 amended: for a 4xx or 5xx upstream status, `raise_for_status`
raises before the line loop runs: the relay emits no normalized event and
the error carries the upstream status and body. -/
theorem upstream_error_no_events (decode : String → Option Json) (r : UpResponse)
    (h1 : 400 ≤ r.status) (h2 : r.status < 600) :
    generateResp decode r = RelayResult.httpError r.status r.body := by
  have hb : raise_for_status_err r.status = true := by
    rw [raise_for_status_err]
    simp [h1, h2]
  rw [generateResp, hb, if_pos rfl]

/-- Witness for C5 (amended): a 500 with a body and pending lines yields
the HTTP error and no events. -/
theorem upstream_error_no_events_witness :
    (400 ≤ 500 ∧ 500 < 600) ∧
    generateResp decode0 (UpResponse.mk 500 "boom" [hiLine]) =
      RelayResult.httpError 500 "boom" :=
  ⟨by decide,
   upstream_error_no_events decode0 (UpResponse.mk 500 "boom" [hiLine])
     (by decide) (by decide)⟩

/-- C6: with no credential configured (environment variable unset, no
api_key in the config), the module API_KEY resolves to the empty string
and both `/chat` and `/stream` fail with the configuration error before
reaching their upstream call. -/
theorem missing_credential_config_error (defaultModel : String)
    (default_settings : List (String × Json)) (req : ChatRequest) :
    API_KEY_init none none = "" ∧
    chat_completion (API_KEY_init none none) defaultModel default_settings req =
      ChatOutcome.configError ∧
    stream_completion (API_KEY_init none none) defaultModel default_settings req =
      StreamOutcome.configError :=
  ⟨rfl, rfl, rfl⟩

/-- C8 counterexample: with the environment variable set to "ENVKEY" and
the config-file key "CFGKEY", the module API_KEY (used by /chat and
/stream) is the environment value, but /models and /balance issue their
upstream GET bearing the config value — not the environment value. -/
theorem env_precedence_counterexample :
    API_KEY_init (some "ENVKEY") (some "CFGKEY") = "ENVKEY" ∧
    list_models (some "CFGKEY") = KeyedCall.request "CFGKEY" ∧
    get_user_balance (some "CFGKEY") = KeyedCall.request "CFGKEY" ∧
    ("CFGKEY" : String) ≠ "ENVKEY" :=
  ⟨rfl, rfl, rfl, by decide⟩

/-- C8 amended: the environment variable takes precedence for the module
API_KEY consumed by /chat and /stream, and for /check_api_key's
`API_KEY or config` fallback; /models and /balance always use the
config-file value. -/
theorem credential_resolution_per_endpoint (e k : String) (defaultModel : String)
    (default_settings : List (String × Json)) (req : ChatRequest)
    (he : e ≠ "") (hk : k ≠ "") (hs : req.stream = false) :
    API_KEY_init (some e) (some k) = e ∧
    API_KEY_init none (some k) = k ∧
    check_api_key_credential (API_KEY_init (some e) (some k)) (some k) = e ∧
    check_api_key_credential (API_KEY_init none (some k)) (some k) = k ∧
    chat_completion (API_KEY_init (some e) (some k)) defaultModel default_settings req =
      ChatOutcome.request
        (UpstreamCall.mk e (buildData defaultModel default_settings req false)) ∧
    stream_completion (API_KEY_init (some e) (some k)) defaultModel default_settings req =
      StreamOutcome.request
        (UpstreamCall.mk e (buildData defaultModel default_settings req true)) ∧
    list_models (some k) = KeyedCall.request k ∧
    get_user_balance (some k) = KeyedCall.request k := by
  refine ⟨rfl, rfl, ?_, ?_, ?_, ?_, ?_, ?_⟩
  · simp only [API_KEY_init, check_api_key_credential]
    rw [if_neg he]
  · simp only [API_KEY_init, check_api_key_credential, Option.getD_some]
    rw [if_neg hk]
  · simp only [API_KEY_init, chat_completion]
    rw [if_neg he, hs]
    simp
  · simp only [API_KEY_init, stream_completion]
    rw [if_neg he]
  · simp only [list_models]
    rw [if_neg hk]
  · simp only [get_user_balance]
    rw [if_neg hk]

/-- Witness for C8 (amended). -/
theorem credential_resolution_per_endpoint_witness :
    ("ENVKEY" : String) ≠ "" ∧ ("CFGKEY" : String) ≠ "" ∧ req0.stream = false ∧
    chat_completion (API_KEY_init (some "ENVKEY") (some "CFGKEY")) "deepseek-chat" [] req0 =
      ChatOutcome.request (UpstreamCall.mk "ENVKEY" (buildData "deepseek-chat" [] req0 false)) ∧
    list_models (some "CFGKEY") = KeyedCall.request "CFGKEY" :=
  ⟨by decide, by decide, rfl,
   (credential_resolution_per_endpoint "ENVKEY" "CFGKEY" "deepseek-chat" [] req0
     (by decide) (by decide) rfl).2.2.2.2.1,
   (credential_resolution_per_endpoint "ENVKEY" "CFGKEY" "deepseek-chat" [] req0
     (by decide) (by decide) rfl).2.2.2.2.2.2.1⟩

/-- C10: `set_api_key` is not atomic — when the new key validates (status
200) but persisting to the config file fails, the endpoint reports
success = false while the global API_KEY has already been switched to the
new key, and subsequent /chat and /stream requests use the new key. -/
theorem set_api_key_not_atomic (updateField : String → String) (st : AppState)
    (newKey : String) (defaultModel : String) (default_settings : List (String × Json))
    (req : ChatRequest)
    (h1 : st.API_KEY ≠ newKey) (h2 : newKey ≠ "") (h3 : req.stream = false) :
    (set_api_key 200 updateField false st newKey).2.success = false ∧
    (set_api_key 200 updateField false st newKey).1.API_KEY = newKey ∧
    (set_api_key 200 updateField false st newKey).1.API_KEY ≠ st.API_KEY ∧
    (set_api_key 200 updateField false st newKey).1.configFileContent =
      st.configFileContent ∧
    chat_completion (set_api_key 200 updateField false st newKey).1.API_KEY
        defaultModel default_settings req =
      ChatOutcome.request
        (UpstreamCall.mk newKey (buildData defaultModel default_settings req false)) ∧
    stream_completion (set_api_key 200 updateField false st newKey).1.API_KEY
        defaultModel default_settings req =
      StreamOutcome.request
        (UpstreamCall.mk newKey (buildData defaultModel default_settings req true)) := by
  have hset : set_api_key 200 updateField false st newKey =
      ({ st with API_KEY := newKey },
       ApiKeyResponse.mk false "保存API密钥到配置文件失败") := rfl
  rw [hset]
  refine ⟨rfl, rfl, fun hEq => h1 hEq.symm, rfl, ?_, ?_⟩
  · simp only [chat_completion]
    rw [if_neg h2, h3]
    simp
  · simp only [stream_completion]
    rw [if_neg h2]

/-- Witness for C10: validating "newkey" with a failing file write reports
failure yet leaves "newkey" as the live credential. -/
theorem set_api_key_not_atomic_witness :
    ("oldkey" : String) ≠ "newkey" ∧
    (set_api_key 200 id false (AppState.mk "oldkey" "yaml" (some "oldkey")) "newkey").2.success
      = false ∧
    (set_api_key 200 id false (AppState.mk "oldkey" "yaml" (some "oldkey")) "newkey").1.API_KEY
      = "newkey" ∧
    chat_completion
        (set_api_key 200 id false (AppState.mk "oldkey" "yaml" (some "oldkey")) "newkey").1.API_KEY
        "deepseek-chat" [] req0 =
      ChatOutcome.request (UpstreamCall.mk "newkey" (buildData "deepseek-chat" [] req0 false)) :=
  ⟨by decide,
   (set_api_key_not_atomic id (AppState.mk "oldkey" "yaml" (some "oldkey")) "newkey"
     "deepseek-chat" [] req0 (by decide) (by decide) rfl).1,
   (set_api_key_not_atomic id (AppState.mk "oldkey" "yaml" (some "oldkey")) "newkey"
     "deepseek-chat" [] req0 (by decide) (by decide) rfl).2.1,
   (set_api_key_not_atomic id (AppState.mk "oldkey" "yaml" (some "oldkey")) "newkey"
     "deepseek-chat" [] req0 (by decide) (by decide) rfl).2.2.2.2.1⟩

end DeepseekRouter
